import Mathlib

/-
Verification of the CTP peer-to-peer file-sharing system
(repository: Rye123/50012-networks-project).

The Python sources are shallowly embedded: byte strings become `List Nat`
(each entry one byte value), dictionaries become association lists in
insertion order, and fallible operations return `Except`/`Option` mirroring
the exception behaviour of the corresponding Python function.
-/

/-- Byte-string split at the FIRST occurrence of `sep`, mirroring Python
`xs.split(sep, 1)`: returns `none` when `sep` does not occur, otherwise the
part before the first occurrence and the part after it. -/
def splitOnce (sep : List Nat) : List Nat → Option (List Nat × List Nat)
  | [] => if sep.isPrefixOf ([] : List Nat) then some ([], []) else none
  | x :: rest =>
    if sep.isPrefixOf (x :: rest) then some ([], (x :: rest).drop sep.length)
    else (splitOnce sep rest).map (fun p => (x :: p.1, p.2))

/-- Auxiliary for `splitAll`, recursing on explicit fuel (each genuine split
strictly shrinks the remainder whenever `sep` is nonempty, so
`xs.length + 1` fuel always suffices for the nonempty separators used in
this development). -/
def splitAllAux (sep : List Nat) : Nat → List Nat → List (List Nat)
  | 0, xs => [xs]
  | fuel + 1, xs =>
    match splitOnce sep xs with
    | none => [xs]
    | some (h, t) => h :: splitAllAux sep fuel t

/-- Byte-string split at EVERY occurrence of `sep`, mirroring Python
`xs.split(sep)` for a nonempty separator. -/
def splitAll (sep xs : List Nat) : List (List Nat) :=
  splitAllAux sep (xs.length + 1) xs

/-- Big-endian unsigned interpretation of a byte string, mirroring Python
`int.from_bytes(bs, "big")` (the empty string yields 0). -/
def fromBytesBE (bs : List Nat) : Nat :=
  bs.foldl (fun acc b => acc * 256 + b) 0

/-- Two-byte big-endian encoding, mirroring `struct.pack("!H", n)` for
`n < 2^16`. -/
def be2 (n : Nat) : List Nat :=
  [n / 256 % 256, n % 256]

/-- Four-byte big-endian encoding, mirroring `struct.pack("!I", n)` and
`n.to_bytes(4, "big")` for `n < 2^32` (Python raises for larger values;
theorems carry that bound as a hypothesis). -/
def be4 (n : Nat) : List Nat :=
  [n / 16777216 % 256, n / 65536 % 256, n / 256 % 256, n % 256]

/-- ASCII bytes of a Lean string literal (used for the fixed ASCII texts
appearing in the Python sources). -/
def asciiOf (s : String) : List Nat :=
  s.data.map Char.toNat

/-- Predicate for a successful Python `bytes.decode("ascii")`: every byte is
below 128. -/
def asciiOk (bs : List Nat) : Bool :=
  bs.all (fun b => b < 128)

/-- `"\r\n"` as bytes. -/
def crlf : List Nat := [13, 10]

/-- `"\r\n\r\n"` as bytes. -/
def crlf2 : List Nat := [13, 10, 13, 10]

/-- Join byte strings with CRLF, mirroring Python `b"\r\n".join(xs)`. -/
def joinCRLF : List (List Nat) → List Nat
  | [] => []
  | [x] => x
  | x :: y :: rest => x ++ crlf ++ joinCRLF (y :: rest)

/-- Auxiliary for `natDigits`: structural recursion on a fuel argument (the
number itself is always enough fuel, since `n / 10 < n` for `n ≥ 10`). -/
def natDigitsAux : Nat → Nat → List Nat
  | 0, n => [48 + n % 10]
  | fuel + 1, n => if n < 10 then [48 + n] else natDigitsAux fuel (n / 10) ++ [48 + n % 10]

/-- Decimal digits of a natural number, mirroring Python `str(n)` for
`n : Nat`. -/
def natDigits (n : Nat) : List Nat :=
  natDigitsAux n n

/-- Decimal rendering of an integer, mirroring Python `str(i)`. -/
def intDigits (i : Int) : List Nat :=
  if i < 0 then 45 :: natDigits i.natAbs else natDigits i.toNat

/-
MESSAGE CODEC of src/ctp/ctp.py (class CTPMessage).

The checked-in revision of src/ctp/ctp.py packs a 70-byte header with
struct format "!HI32s32s": a TWO-byte big-endian message type, a four-byte
big-endian data length, then the two 32-byte identifiers; it has no
sequence-number field.  (The later protocol revision used by
src/ctp/peers.py, src/client/client.py and src/control-server/server.py —
which construct messages with a seqnum — is not present under src/; see the
separate `MsgType`/`CTPMsg` model below.)
-/

/-- `CTPMessageType` of src/ctp/ctp.py: the six values 0b0000 .. 0b0101. -/
inductive CTPMessageType
  | STATUS_REQUEST
  | STATUS_RESPONSE
  | NOTIFICATION
  | NOTIFICATION_ACK
  | BLOCK_REQUEST
  | BLOCK_RESPONSE
deriving DecidableEq, Repr

/-- Numeric value of a `CTPMessageType` (the IntEnum value). -/
def CTPMessageType.val : CTPMessageType → Nat
  | .STATUS_REQUEST => 0
  | .STATUS_RESPONSE => 1
  | .NOTIFICATION => 2
  | .NOTIFICATION_ACK => 3
  | .BLOCK_REQUEST => 4
  | .BLOCK_RESPONSE => 5

/-- Conversion from a numeric value to a `CTPMessageType`, mirroring the
`CTPMessageType(value)` IntEnum constructor (raises, i.e. `none`, on an
unknown value). -/
def ctpMessageTypeOfVal : Nat → Option CTPMessageType
  | 0 => some .STATUS_REQUEST
  | 1 => some .STATUS_RESPONSE
  | 2 => some .NOTIFICATION
  | 3 => some .NOTIFICATION_ACK
  | 4 => some .BLOCK_REQUEST
  | 5 => some .BLOCK_RESPONSE
  | _ => none

/-- `InvalidCTPMessageError` of src/ctp/ctp.py. -/
inductive CTPErr
  | invalidMessage
deriving DecidableEq, Repr

/-- A `CTPMessage` of src/ctp/ctp.py.  The Python attribute `data_length`
is always `len(self.data)` (set in `__init__`), so it is not a separate
field; `__eq__` compares `msg_type`, `cluster_id`, `sender_id`,
`data_length` and `data`, which coincides with equality of this
structure. -/
structure CTPMessage where
  msg_type : CTPMessageType
  data : List Nat
  cluster_id : List Nat
  sender_id : List Nat
deriving DecidableEq, Repr

/-- `CTPMessage.HEADER_LENGTH` of src/ctp/ctp.py (70 in this revision). -/
def ctpHeaderLength : Nat := 70

/-- `struct.pack("!32s", bs)`: truncate to 32 bytes and zero-pad. -/
def pad32 (bs : List Nat) : List Nat :=
  bs.take 32 ++ List.replicate (32 - bs.length) 0

/-- `CTPMessage.pack` of src/ctp/ctp.py: two-byte message type, four-byte
data length, two 32-byte identifiers, then the data.  (`struct.pack("!I")`
would raise for a data length at or above 2^32; the round-trip theorem
carries that bound as a hypothesis.) -/
def CTPMessage.pack (m : CTPMessage) : List Nat :=
  be2 m.msg_type.val ++ be4 m.data.length ++ pad32 m.cluster_id ++ pad32 m.sender_id ++ m.data

/-- Header fields returned by `CTPMessage.unpack_header`. -/
structure CTPHeader where
  msg_type : CTPMessageType
  data_length : Nat
  cluster_id : List Nat
  sender_id : List Nat
deriving DecidableEq, Repr

/-- `CTPMessage.unpack_header` of src/ctp/ctp.py: requires exactly 70
bytes, splits per "!HI32s32s", rejects unknown message-type values and
non-ASCII identifier bytes. -/
def CTPMessage.unpackHeader (ph : List Nat) : Except CTPErr CTPHeader :=
  if ph.length ≠ ctpHeaderLength then .error .invalidMessage
  else
    match ctpMessageTypeOfVal (fromBytesBE (ph.take 2)) with
    | none => .error .invalidMessage
    | some mt =>
      let cid := (ph.drop 6).take 32
      let sid := (ph.drop 38).take 32
      if asciiOk cid && asciiOk sid then
        .ok ⟨mt, fromBytesBE ((ph.drop 2).take 4), cid, sid⟩
      else .error .invalidMessage

/-- `CTPMessage.unpack` of src/ctp/ctp.py: rejects packets shorter than the
70-byte header, parses the header, and takes everything after the header as
the data.  (The `CTPMessage` constructor checks on the parsed fields cannot
fail: the identifiers are exactly 32 bytes by construction.) -/
def CTPMessage.unpack (packet : List Nat) : Except CTPErr CTPMessage :=
  if packet.length < ctpHeaderLength then .error .invalidMessage
  else
    (CTPMessage.unpackHeader (packet.take ctpHeaderLength)).map
      (fun h => ⟨h.msg_type, packet.drop ctpHeaderLength, h.cluster_id, h.sender_id⟩)

/-
BLOCK CODEC of src/util/files.py (class Block).
-/

/-- A `Block` of src/util/files.py: `filehash`, `block_id`, `data`, and the
`downloaded` flag (a mutable attribute in the source, set by `__init__` and
overwritten by `from_file` / `from_temp_file` / the sync loops). -/
structure PBlock where
  filehash : List Nat
  block_id : Nat
  data : List Nat
  downloaded : Bool
deriving DecidableEq, Repr

/-- `Block.__init__` field assignment: `downloaded = not (len(data) == 0)`.
The constructor ValueError for a filehash that is not 16 bytes is modelled
at the call sites that catch it (`Block.unpack`). -/
def blockInit (filehash : List Nat) (block_id : Nat) (data : List Nat) : PBlock :=
  ⟨filehash, block_id, data, !data.isEmpty⟩

/-- `Block.pack` of src/util/files.py:
`filehash + b" " + block_id.to_bytes(4, "big") + b"\r\n\r\n" + data`
(`to_bytes` raises unless the id fits four unsigned bytes; theorems carry
that bound as a hypothesis). -/
def blockPack (b : PBlock) : List Nat :=
  b.filehash ++ [32] ++ be4 b.block_id ++ crlf2 ++ b.data

/-- `Block.unpack` of src/util/files.py: split at the FIRST double CRLF
(`packet.split(b"\r\n\r\n", 1)`; a missing separator makes the two-name
unpacking raise ValueError, caught and turned into `None`); then
`filehash = header[:16]`, `block_id = int.from_bytes(header[17:], "big")`.
`Block(...)` raises ValueError — caught, `None` — exactly when
`header[:16]` is shorter than 16 bytes.  Byte 16 of the header (the space)
is never examined and `header[17:]` may have any length, including zero. -/
def blockUnpack (packet : List Nat) : Option PBlock :=
  match splitOnce crlf2 packet with
  | none => none
  | some (header, data) =>
    if (header.take 16).length = 16 then
      some (blockInit (header.take 16) (fromBytesBE (header.drop 17)) data)
    else none

/-
FILE DESCRIPTORS AND TEMP FILES of src/util/files.py
(classes FileInfo and File).
-/

/-- One decimal digit byte. -/
def isDigitB (b : Nat) : Bool := 48 ≤ b && b ≤ 57

/-- Value of a string of decimal digit bytes. -/
def digitsVal (bs : List Nat) : Nat :=
  bs.foldl (fun acc b => acc * 10 + (b - 48)) 0

/-- Parse a nonempty all-digit byte string. -/
def parseDigits (bs : List Nat) : Option Nat :=
  if bs ≠ [] ∧ bs.all isDigitB then some (digitsVal bs) else none

/-- Python `int(s)` on the byte strings this system produces: an optional
sign followed by decimal digits (`none` models the ValueError).  Python
additionally strips surrounding whitespace and allows underscore grouping;
those forms never occur in this system and are not modelled. -/
def parsePyInt (bs : List Nat) : Option Int :=
  match bs with
  | 45 :: rest => (parseDigits rest).map (fun n => -(n : Int))
  | 43 :: rest => (parseDigits rest).map (fun n => (n : Int))
  | _ => (parseDigits bs).map (fun n => (n : Int))

/-- Digit-sequence validity for Python `float(s)`: `d+`, `d+.d*` or
`.d+`. -/
def isValidPyFloatCore (bs : List Nat) : Bool :=
  match splitOnce [46] bs with
  | none => !bs.isEmpty && bs.all isDigitB
  | some (ip, fp) => (!ip.isEmpty || !fp.isEmpty) && ip.all isDigitB && fp.all isDigitB

/-- Validity for Python `float(s)` on the timestamp strings this system
produces (optional sign, plain decimal; exponent notation never occurs and
is not modelled). -/
def isValidPyFloat (bs : List Nat) : Bool :=
  match bs with
  | 45 :: rest => isValidPyFloatCore rest
  | 43 :: rest => isValidPyFloatCore rest
  | _ => isValidPyFloatCore bs

/-- Python `float(s)`, with the accepted value carried as its decimal text
(`none` models the ValueError).  No claim proved here observes the numeric
value of a timestamp — only parse success and pass-through — so the exact
text stands in for the float. -/
def parsePyFloat (bs : List Nat) : Option (List Nat) :=
  if isValidPyFloat bs then some bs else none

/-- Modelled from the spec: `CTPMessage.MAX_DATA_LENGTH` of the protocol
revision referenced by src/util/files.py line 13 but absent from
src/ctp/ctp.py as checked in; spec section 3 fixes the maximum body at
1331 bytes. -/
def MAX_DATA_LENGTH : Nat := 1331

/-- `BLOCK_HEADER_SIZE` of src/util/files.py. -/
def BLOCK_HEADER_SIZE : Nat := 25

/-- `MAX_BLOCK_SIZE = CTPMessage.MAX_DATA_LENGTH - BLOCK_HEADER_SIZE`
(src/util/files.py line 13; = 1306). -/
def MAX_BLOCK_SIZE : Nat := MAX_DATA_LENGTH - BLOCK_HEADER_SIZE

/-- A `FileInfo` of src/util/files.py.  The `shareddir`/`filepath` fields
are disk-path bookkeeping and are not modelled; `block_count` is the
attribute computed by `__init__`. -/
structure FInfo where
  filename : List Nat
  filehash : List Nat
  filesize : Int
  timestamp : List Nat
  block_count : Int
deriving DecidableEq, Repr

/-- `FileInfo.__init__`: stores the fields and computes
`block_count = ceil(filesize / MAX_BLOCK_SIZE)` (exact integer ceiling;
CPython computes it through float division, whose rounding cannot change
the ceiling for any realistic file size).  The timestamp is the decimal
text of the float, per `parsePyFloat`. -/
def mkFInfo (filename filehash : List Nat) (filesize : Int) (timestamp : List Nat) : FInfo :=
  ⟨filename, filehash, filesize, timestamp,
    Int.ediv (filesize + (MAX_BLOCK_SIZE : Int) - 1) MAX_BLOCK_SIZE⟩

/-- `FileInfo._from_bytes` of src/util/files.py: split the CRINFO bytes at
CRLF into exactly two parts, decode the first line as ASCII, split it on
single spaces into exactly three fields, parse `int` and `float`, and
require the `CRINFO` signature; any failure raises ValueError (`none`).
The second part is the raw filehash (not ASCII-checked). -/
def fileInfoFromBytes (filename data : List Nat) : Option FInfo :=
  match splitAll crlf data with
  | [l1, fhash] =>
    if asciiOk l1 then
      match splitAll [32] l1 with
      | [sig, szs, tss] =>
        match parsePyInt szs, parsePyFloat tss with
        | some sz, some ts =>
          if sig = asciiOf "CRINFO" then some (mkFInfo filename fhash sz ts) else none
        | _, _ => none
      | _ => none
    else none
  | _ => none

/-- A `File` of src/util/files.py: its `FileInfo` and its list of blocks.
The `shareddir`/path attributes are disk-path bookkeeping and are not
modelled. -/
structure CRFile where
  fileinfo : FInfo
  blocks : List PBlock
deriving DecidableEq, Repr

/-- `File.downloaded` property: every block downloaded. -/
def CRFile.downloaded (f : CRFile) : Bool :=
  f.blocks.all (fun b => b.downloaded)

/-- `File.__init__`: one empty block per `block_count`
(`Block(filehash, i)` for `i in range(block_count)`; an empty range for a
non-positive count, as in Python). -/
def fileInit (fi : FInfo) : CRFile :=
  ⟨fi, (List.range fi.block_count.toNat).map (fun i => blockInit fi.filehash i [])⟩

/-- Errors of the File layer: `fileError` is the `FileError` class of
src/util/files.py; `pyError` stands for an uncaught Python exception
(IndexError, ValueError, UnicodeDecodeError) escaping the function. -/
inductive FileErr
  | fileError
  | pyError
deriving DecidableEq, Repr

/-- `i.to_bytes(4, byteorder="big", signed=True)` for the values this
system writes (−1 and non-negative data offsets). -/
def sbe4 (i : Int) : List Nat :=
  if i < 0 then be4 (i + 4294967296).toNat else be4 i.toNat

/-- `int.from_bytes(bs, byteorder="big", signed=True)`: big-endian twos-complement encoding of the given width (0 for the empty string). -/
def fromBytesSignedBE (bs : List Nat) : Int :=
  match bs with
  | [] => 0
  | b :: _ =>
    if 128 ≤ b then (fromBytesBE bs : Int) - ((2 ^ (8 * bs.length) : Nat) : Int)
    else (fromBytesBE bs : Int)

/-- Python slice-index normalisation: a negative index counts from the end
and the result is clamped to `[0, len]`. -/
def pyIdx (len : Nat) (i : Int) : Nat :=
  if i < 0 then ((len : Int) + i).toNat else min len i.toNat

/-- Python `xs[i:]`. -/
def pySliceFrom (xs : List Nat) (i : Int) : List Nat :=
  xs.drop (pyIdx xs.length i)

/-- Python `xs[i:j]`. -/
def pySlice (xs : List Nat) (i j : Int) : List Nat :=
  (xs.take (pyIdx xs.length j)).drop (pyIdx xs.length i)

/-- The pointer/data accumulation loop of `File.write_temp_file`: for each
block in order, a missing block contributes pointer −1, a downloaded block
contributes the current data length as pointer and appends its data. -/
def tempAcc (blocks : List PBlock) : List (List Nat) × List Nat :=
  blocks.foldl
    (fun acc b =>
      if !b.downloaded then (acc.1 ++ [sbe4 (-1)], acc.2)
      else (acc.1 ++ [sbe4 (acc.2.length : Int)], acc.2 ++ b.data))
    ([], [])

/-- `File.write_temp_file` of src/util/files.py, modelled as the byte
string written to `<filename>.crtemp` (the separate `FileInfo.write` to the
crinfo directory carries no information beyond the `FInfo` itself).
Raises `FileError` when the file is fully downloaded. -/
def writeTempFile (f : CRFile) : Except FileErr (List Nat) :=
  if f.downloaded then .error .fileError
  else
    let pd := tempAcc f.blocks
    .ok ((asciiOf "CRTEMP " ++ natDigits f.fileinfo.block_count.toNat
          ++ crlf ++ joinCRLF pd.1) ++ crlf2 ++ pd.2)

/-- The block-pointer processing loop of `File.from_temp_file`, applied to
the pointer rows `header[1:]`: for each pointer (with lookahead to the next
one), −1 yields an empty block; otherwise the block is `data[first:last]`,
or `data[first:]` when the NEXT pointer is −1 or when this is the final
pointer.  (Python slice-index normalisation is modelled by `pySlice` /
`pySliceFrom`.) -/
def tempBlockData (data : List Nat) : List (List Nat) → List (List Nat)
  | [] => []
  | [p] =>
    if fromBytesSignedBE p = -1 then [[]]
    else [pySliceFrom data (fromBytesSignedBE p)]
  | p :: q :: rest =>
    (if fromBytesSignedBE p = -1 then []
     else if fromBytesSignedBE q = -1 then pySliceFrom data (fromBytesSignedBE p)
     else pySlice data (fromBytesSignedBE p) (fromBytesSignedBE q))
    :: tempBlockData data (q :: rest)

/-- The final loop of `File.from_temp_file`: `file.blocks[i].data =
block_data[i]; file.blocks[i].downloaded = not (block_data[i] == b"")` for
`i in range(block_count)`; blocks past `block_count` keep their initial
state. -/
def setBlocks (blocks : List PBlock) (bd : List (List Nat)) (count : Nat) : List PBlock :=
  blocks.enum.map
    (fun p =>
      if p.1 < count then
        { p.2 with data := bd.getD p.1 [], downloaded := !(bd.getD p.1 []).isEmpty }
      else p.2)

/-- `File.from_temp_file` of src/util/files.py, modelled on the byte
content of the temp file; the `FileInfo` loaded from the crinfo directory
is the `fi` argument (the path/suffix checks and the FileError for a
missing CRINFO are disk-level and outside the round-trip claim).  Splits at
the FIRST double CRLF (a missing separator raises IndexError on
`file_raw_split[1]`), splits the header at every CRLF, parses and checks
the first line, processes the pointer rows, then overwrites the blocks of a
fresh `File(fileinfo)`.  (When `block_count` is 0 the source reads
`header[-1]`, which is the first line, but the resulting entry is unused
because the final loop is empty — the model returns the same `File`.) -/
def fromTempBytes (fi : FInfo) (raw : List Nat) : Except FileErr CRFile :=
  match splitOnce crlf2 raw with
  | none => .error .pyError
  | some (headerPart, data) =>
    let header := splitAll crlf headerPart
    let l1 := header.headD []
    if ¬ asciiOk l1 = true then .error .pyError
    else
      match splitAll [32] l1 with
      | [sig, cnt] =>
        match parsePyInt cnt with
        | none => .error .pyError
        | some block_count =>
          if sig ≠ asciiOf "CRTEMP" then .error .fileError
          else if block_count ≠ (header.length : Int) - 1 then .error .fileError
          else
            let bd := tempBlockData data (header.drop 1)
            let f := fileInit fi
            if block_count.toNat ≤ f.blocks.length then
              .ok ⟨fi, setBlocks f.blocks bd block_count.toNat⟩
            else .error .pyError
      | _ => .error .fileError

/-
REQUEST/RESPONSE ENGINE of src/ctp/peers.py
(classes Listener and CTPPeer).
-/

/-- Modelled from the spec: the message-type enumeration of the protocol
revision used by src/ctp/peers.py, src/client/client.py and
src/control-server/server.py (spec section 6 table).  That revision of
ctp/ctp.py is absent from src/ (the checked-in src/ctp/ctp.py is the
earlier six-value revision embedded above as `CTPMessageType`); the values
here are the ones the spec fixes and the callers reference. -/
inductive MsgType
  | STATUS_REQUEST
  | STATUS_RESPONSE
  | NOTIFICATION
  | NOTIFICATION_ACK
  | BLOCK_REQUEST
  | BLOCK_RESPONSE
  | CLUSTER_JOIN_REQUEST
  | CLUSTER_JOIN_RESPONSE
  | MANIFEST_REQUEST
  | MANIFEST_RESPONSE
  | CRINFO_REQUEST
  | CRINFO_RESPONSE
  | NEW_CRINFO_NOTIF
  | NEW_CRINFO_NOTIF_ACK
  | PEERLIST_PUSH
  | UNEXPECTED_REQ
  | INVALID_REQ
  | NO_OP
  | SERVER_ERROR
deriving DecidableEq, Repr

/-- Numeric values of `MsgType` (spec section 6). -/
def MsgType.val : MsgType → Nat
  | .STATUS_REQUEST => 0x00
  | .STATUS_RESPONSE => 0x01
  | .NOTIFICATION => 0x02
  | .NOTIFICATION_ACK => 0x03
  | .BLOCK_REQUEST => 0x04
  | .BLOCK_RESPONSE => 0x05
  | .CLUSTER_JOIN_REQUEST => 0x06
  | .CLUSTER_JOIN_RESPONSE => 0x07
  | .MANIFEST_REQUEST => 0x08
  | .MANIFEST_RESPONSE => 0x09
  | .CRINFO_REQUEST => 0x0A
  | .CRINFO_RESPONSE => 0x0B
  | .NEW_CRINFO_NOTIF => 0x0C
  | .NEW_CRINFO_NOTIF_ACK => 0x0D
  | .PEERLIST_PUSH => 0x10
  | .UNEXPECTED_REQ => 0xF9
  | .INVALID_REQ => 0xFD
  | .NO_OP => 0xFE
  | .SERVER_ERROR => 0xFF

/-- `CTPMessageType.is_request`: the value is even (last bit 0).  Note the
spec (section 6) warns the parity hint is unreliable for `PEERLIST_PUSH`
and `NO_OP`, whose values happen to be even, so `send_request` accepts
them. -/
def MsgType.isRequest (t : MsgType) : Bool :=
  t.val % 2 == 0

/-- A message of the seqnum-bearing protocol revision, with the constructor
field order of the call sites `CTPMessage(msg_type, seqnum, data,
cluster_id, sender_id)` in src/ctp/peers.py. -/
structure CTPMsg where
  msg_type : MsgType
  seqnum : Nat
  data : List Nat
  cluster_id : List Nat
  sender_id : List Nat
deriving DecidableEq, Repr

/-- An `(ip, port)` address pair. -/
def AddrT := List Nat × Nat
deriving instance DecidableEq, Repr for AddrT

/-- `Listener.get_response` of src/ctp/peers.py, acting on the response
queue contents: scan in queue order for the first entry whose message
seqnum equals `expected` — the ONLY matching criterion; the stored sender
address and the message sender id are ignored — remove it and return it;
`none` if no entry matches (the source then blocks up to `block_time` and
rescans; a scan of the final queue contents models the attempt).  Returns
the matched message and the remaining queue. -/
def getResponse (expected : Nat) :
    List (CTPMsg × AddrT) → Option CTPMsg × List (CTPMsg × AddrT)
  | [] => (none, [])
  | t :: rest =>
    if t.1.seqnum = expected then (some t.1, rest)
    else
      let r := getResponse expected rest
      (r.1, t :: r.2)

/-- Errors raised by `CTPPeer.send_request`: `valueError` for a
non-request message type, `connError` for `CTPConnectionError` after all
attempts fail. -/
inductive SendErr
  | valueError
  | connError
deriving DecidableEq, Repr

/-- The attempt loop of `CTPPeer.send_request` (`while attempts <=
retries`, so `retries + 1` attempts).  Each attempt sends the datagram,
returns `none` immediately for `NO_OP`/`PEERLIST_PUSH` (no response
expected), otherwise consults `get_response(seqnum + 1, timeout)` on the
response-queue contents of that attempt (`queues k`); a match is returned, a
timeout moves to the next attempt, and exhaustion raises
`CTPConnectionError`. -/
def sendLoop (t : MsgType) (seqnum : Nat) (queues : Nat → List (CTPMsg × AddrT)) :
    Nat → Nat → Except SendErr (Option CTPMsg)
  | 0, _ => .error .connError
  | remaining + 1, k =>
    if t = MsgType.NO_OP ∨ t = MsgType.PEERLIST_PUSH then .ok none
    else
      match (getResponse (seqnum + 1) (queues k)).1 with
      | some r => .ok (some r)
      | none => sendLoop t seqnum queues remaining (k + 1)

/-- `CTPPeer.send_request` of src/ctp/peers.py, abstracted over the
randomly generated `seqnum` and over the response-queue contents observed
by attempt `k` (`queues k`).  Raises ValueError when `msg_type` is not a
request; the destination-address check of the source can only fail for a
non-tuple argument and is not modelled; timing is abstracted as described
at `getResponse`. -/
def sendRequestM (t : MsgType) (seqnum : Nat) (retries : Nat)
    (queues : Nat → List (CTPMsg × AddrT)) : Except SendErr (Option CTPMsg) :=
  if t.isRequest then sendLoop t seqnum queues (retries + 1) 0
  else .error .valueError

/-
SERVER-SIDE REQUEST HANDLERS of src/control-server/server.py
(class ServerRequestHandler and class Cluster).

Python dicts are embedded as insertion-ordered association lists: an
assignment to an existing key updates it in place, a new key is appended,
and `pop` removes the entry.
-/

/-- Dict lookup (`d.get(k)` / `d[k]`). -/
def assocLookup {α : Type} (k : List Nat) : List (List Nat × α) → Option α
  | [] => none
  | (k', v) :: rest => if k' = k then some v else assocLookup k rest

/-- Dict assignment `d[k] = v`. -/
def assocUpdate {α : Type} (k : List Nat) (v : α) : List (List Nat × α) → List (List Nat × α)
  | [] => [(k, v)]
  | (k', v') :: rest =>
    if k' = k then (k, v) :: rest else (k', v') :: assocUpdate k v rest

/-- Dict removal `d.pop(k, None)`. -/
def assocErase {α : Type} (k : List Nat) : List (List Nat × α) → List (List Nat × α)
  | [] => []
  | (k', v') :: rest => if k' = k then rest else (k', v') :: assocErase k rest

/-- Python `sorted` on ASCII byte strings: lexicographic by code point,
which for byte lists is the lexicographic linear order on `List Nat`. -/
def sortKeysLex (l : List (List Nat)) : List (List Nat) :=
  List.insertionSort (· ≤ ·) l

/-- The server file state touched by `handle_new_crinfo_notif`:
`fileinfo_map` (filename → FileInfo) and the manifest bytes kept in the
manifest shared directory. -/
structure ServerFiles where
  fileinfo_map : List (List Nat × FInfo)
  manifest : List Nat
deriving DecidableEq, Repr

/-- `Server._update_manifest`: `"CRMANIFEST\r\n\r\n"` followed by the
CRLF-join of the sorted filenames of `fileinfo_map`. -/
def manifestBytes (m : List (List Nat × FInfo)) : List Nat :=
  asciiOf "CRMANIFEST" ++ crlf2 ++ joinCRLF (sortKeysLex (m.map Prod.fst))

/-- `Server.add_fileinfo`: store the FileInfo under its filename
(overwriting), persist it (`fileinfo.write()`, carrying no information
beyond the FInfo itself), and rewrite the manifest. -/
def serverAddFileinfo (st : ServerFiles) (fi : FInfo) : ServerFiles :=
  let m' := assocUpdate fi.filename fi st.fileinfo_map
  ⟨m', manifestBytes m'⟩

/-- The parsing stage of `handle_new_crinfo_notif` as one function: split
the body at the first double CRLF, ASCII-decode the filename, parse the
CRINFO bytes.  `none` collects every ValueError the try block catches. -/
def parseNewCrinfoBody (reqData : List Nat) : Option FInfo :=
  match splitOnce crlf2 reqData with
  | none => none
  | some (filename_b, crinfo_b) =>
    if asciiOk filename_b then fileInfoFromBytes filename_b crinfo_b else none

/-- `ServerRequestHandler.handle_new_crinfo_notif` of
src/control-server/server.py: parse the body; on ValueError reply
`INVALID_REQ`; otherwise reply `NEW_CRINFO_NOTIF_ACK` with `"error:
exists"` when `fileinfo in fileinfo_map.values()` — membership through
`FileInfo.__eq__`, i.e. some stored FileInfo has the SAME FILEHASH (the
filename plays no part in the check) — and with `"success"` after
`add_fileinfo` otherwise.  Returns the response (type, body; the seqnum
attached by `send_response` is request seqnum + 1) and the resulting
state. -/
def handleNewCrinfoNotif (st : ServerFiles) (reqData : List Nat) :
    (MsgType × List Nat) × ServerFiles :=
  match splitOnce crlf2 reqData with
  | none => ((.INVALID_REQ, asciiOf "error: corrupted CRINFO file or filename"), st)
  | some (filename_b, crinfo_b) =>
    if asciiOk filename_b then
      match fileInfoFromBytes filename_b crinfo_b with
      | none => ((.INVALID_REQ, asciiOf "error: corrupted CRINFO file or filename"), st)
      | some fi =>
        if st.fileinfo_map.any (fun kv => kv.2.filehash == fi.filehash) then
          ((.NEW_CRINFO_NOTIF_ACK, asciiOf "error: exists"), st)
        else
          ((.NEW_CRINFO_NOTIF_ACK, asciiOf "success"), serverAddFileinfo st fi)
    else ((.INVALID_REQ, asciiOf "error: corrupted CRINFO file or filename"), st)

/-- Server-side cluster state (class Cluster of
src/control-server/server.py): the peermap (peer id → address; the stored
`PeerInfo` carries exactly the id and address) and the set of peer ids
with a running expiration timer (`peertimers`; the Timer objects carry no
further observable state). -/
structure SCluster where
  peermap : List (List Nat × AddrT)
  timers : List (List Nat)
deriving DecidableEq, Repr

/-- `Cluster.add_peer`: overwrite the peermap entry for the peer and start
(or restart) its liveness timer. -/
def clusterAddPeer (c : SCluster) (pid : List Nat) (addr : AddrT) : SCluster :=
  ⟨assocUpdate pid addr c.peermap,
    if pid ∈ c.timers then c.timers else c.timers ++ [pid]⟩

/-- One line of `Cluster.generate_peerlist`:
`f"{peer_id} {addr[0]} {addr[1]}"`.  The lookup cannot miss (the ids come
from the peermap keys; Python would raise on `None.address`), so a default
address stands in for the impossible branch. -/
def peerLine (c : SCluster) (pid : List Nat) : List Nat :=
  let a := (assocLookup pid c.peermap).getD ([], 0)
  pid ++ [32] ++ a.1 ++ [32] ++ natDigits a.2

/-- `Cluster.generate_peerlist`: the CRLF-join of the peer lines in sorted
peer-id order (`sorted(list(self.peermap.keys()))`). -/
def generatePeerlist (c : SCluster) : List Nat :=
  joinCRLF ((sortKeysLex (c.peermap.map Prod.fst)).map (peerLine c))

/-- `ServerRequestHandler.handle_cluster_join_request` of
src/control-server/server.py together with `Server.push_peerlist`: on an
unknown cluster id reply `INVALID_REQ` "No such cluster." and change
nothing; otherwise add the `(sender_id, request address)` peer (overwriting
and starting its timer), reply `CLUSTER_JOIN_RESPONSE` with the generated
peer list, and THEN send a `PEERLIST_PUSH` of the same list to every peer
of the cluster other than the joiner (`push_peerlist(cluster_id,
peer_id)`), in peermap order.  Returns the updated clusters map, the
response, and the pushed datagrams in order.  (The timer reset that
`handle` performs for already-known senders before dispatch keeps the
timer set unchanged in this model.) -/
def handleClusterJoin (clusters : List (List Nat × SCluster))
    (cluster_id sender_id : List Nat) (addr : AddrT) :
    List (List Nat × SCluster) × (MsgType × List Nat)
      × List (AddrT × (MsgType × List Nat)) :=
  match assocLookup cluster_id clusters with
  | none => (clusters, (.INVALID_REQ, asciiOf "No such cluster."), [])
  | some cl =>
    let cl' := clusterAddPeer cl sender_id addr
    let pushes := (cl'.peermap.filter (fun kv => !(kv.1 == sender_id))).map
        (fun kv => (kv.2, (MsgType.PEERLIST_PUSH, generatePeerlist cl')))
    (assocUpdate cluster_id cl' clusters,
      (.CLUSTER_JOIN_RESPONSE, generatePeerlist cl'), pushes)

/-
PEER-SIDE REQUEST HANDLERS of src/client/client.py
(class PeerRequestHandler).
-/

/-- The search of `PeerRequestHandler.handle_block_request`: take the
FIRST file whose `fileinfo.filehash` matches the requested block (the loop
breaks after it, matching or not), find the block with the requested id in
it, and reply with its packed bytes when downloaded; every miss — no file,
no block, block not downloaded — replies the empty body. -/
def peerBlockResponse (filemap : List CRFile) (rb : PBlock) : List Nat :=
  match filemap.find? (fun f => f.fileinfo.filehash == rb.filehash) with
  | none => []
  | some f =>
    match f.blocks.find? (fun b => b.block_id == rb.block_id) with
    | none => []
    | some b => if b.downloaded then blockPack b else []

/-- Success of `Peer._parse_peerlist`: the body decodes as ASCII and every
CRLF-separated line splits on single spaces into exactly
`peer_id ip port` with an integer port; any failure raises ValueError. -/
def peerlistParseOk (data : List Nat) : Bool :=
  asciiOk data &&
    (splitAll crlf data).all (fun line =>
      match splitAll [32] line with
      | [_, _, port] => (parsePyInt port).isSome
      | _ => false)

/-- `PeerRequestHandler.handle` of src/client/client.py, as the response
it sends (`none` when no response is sent; the peermap overwrite performed
by a successful `PEERLIST_PUSH` has no bearing on the response and is not
returned).  Dedicated handlers exist for `STATUS_REQUEST`, `NOTIFICATION`,
`BLOCK_REQUEST`, `PEERLIST_PUSH` and `NO_OP`; any exception in them is
answered `SERVER_ERROR` with an empty body (in particular `Block.unpack`
returning `None` makes `handle_block_request` crash on
`requested_block.filehash`, and a malformed peer list raises ValueError);
EVERY OTHER TYPE falls to `handle_unknown_request`, which — overriding the
`UNEXPECTED_REQ` default of the base `RequestHandler` in
src/ctp/peers.py — "handles unknown request by returning the status":
`STATUS_RESPONSE` with body `"status: 1"`. -/
def peerRequestHandle (filemap : List CRFile) (req : CTPMsg) :
    Option (MsgType × List Nat) :=
  match req.msg_type with
  | .STATUS_REQUEST => some (.STATUS_RESPONSE, asciiOf "status: 1")
  | .NOTIFICATION => some (.NOTIFICATION_ACK, [])
  | .BLOCK_REQUEST =>
    match blockUnpack req.data with
    | none => some (.SERVER_ERROR, [])
    | some rb => some (.BLOCK_RESPONSE, peerBlockResponse filemap rb)
  | .PEERLIST_PUSH =>
    if peerlistParseOk req.data then none else some (.SERVER_ERROR, [])
  | .NO_OP => none
  | _ => some (.STATUS_RESPONSE, asciiOf "status: 1")

/-
SHARED DIRECTORY of src/util/files.py (class SharedDirectory).
-/

/-- Path of the data file `<D>/<name>`, as segments relative to the shared
directory root. -/
def dataPath (name : List Nat) : List (List Nat) := [name]

/-- Path of the partial-download file `<D>/<name>.crtemp`. -/
def tempPath (name : List Nat) : List (List Nat) := [name ++ asciiOf ".crtemp"]

/-- Path of the descriptor `<D>/crinfo/<name>.crinfo`. -/
def crinfoPath (name : List Nat) : List (List Nat) :=
  [asciiOf "crinfo", name ++ asciiOf ".crinfo"]

/-- A `SharedDirectory` with its on-disk content: the in-memory `filemap`
and the set of files on disk under the root. -/
structure SDState where
  filemap : List (List Nat × CRFile)
  disk : List (List (List Nat))
deriving DecidableEq, Repr

/-- `Path.unlink(missing_ok=True)`: remove the path from the disk, no
error when absent. -/
def unlink (disk : List (List (List Nat))) (p : List (List Nat)) :
    List (List (List Nat)) :=
  disk.filter (fun q => !(q == p))

/-- `SharedDirectory.delete_file` of src/util/files.py:
`filemap.pop(filename, None)`, then unlink the data file and the
descriptor — and nothing else: the `.crtemp` file is not touched. -/
def deleteFile (st : SDState) (name : List Nat) : SDState :=
  ⟨assocErase name st.filemap,
    unlink (unlink st.disk (dataPath name)) (crinfoPath name)⟩

/-- Concrete partially downloaded file exhibiting the C4 decoder bug:
3 blocks (filesize 3000, so `block_count = 3`), blocks 0 and 2 downloaded
with one byte each, block 1 missing. -/
def tempInfoEx : FInfo :=
  mkFInfo (asciiOf "f.bin") (List.replicate 16 1) 3000 (asciiOf "1.0")

/-- The blocks of the C4 example file. -/
def tempFileEx : CRFile :=
  ⟨tempInfoEx,
    [blockInit (List.replicate 16 1) 0 [65],
     blockInit (List.replicate 16 1) 1 [],
     blockInit (List.replicate 16 1) 2 [66]]⟩

/- ===================== helper lemmas ===================== -/

theorem pad32_eq_self {bs : List Nat} (h : bs.length = 32) : pad32 bs = bs := by
  simp [pad32, h, List.take_of_length_le (le_of_eq h)]

theorem splitOnce_eq_none_of_no_occ {sep : List Nat} (hsep : sep ≠ []) (xs : List Nat)
    (hocc : ∀ i < xs.length, ¬ sep.isPrefixOf (xs.drop i) = true) :
    splitOnce sep xs = none := by
  induction xs with
  | nil =>
    obtain ⟨a, as, rfl⟩ : ∃ a as, sep = a :: as := by
      cases sep with
      | nil => exact absurd rfl hsep
      | cons a as => exact ⟨a, as, rfl⟩
    rfl
  | cons x rest ih =>
    have h0 := hocc 0 (by simp)
    simp only [List.drop_zero] at h0
    have hrest : ∀ i < rest.length, ¬ sep.isPrefixOf (rest.drop i) = true := by
      intro i hi
      have := hocc (i + 1) (by simp; omega)
      simpa [List.drop_succ_cons] using this
    simp [splitOnce, h0, ih hrest]

theorem splitOnce_first_occ {sep : List Nat} (hsep : sep ≠ []) (h rest : List Nat)
    (hocc : ∀ i < h.length, ¬ sep.isPrefixOf ((h ++ (sep ++ rest)).drop i) = true) :
    splitOnce sep (h ++ (sep ++ rest)) = some (h, rest) := by
  induction h with
  | nil =>
    obtain ⟨a, as, rfl⟩ : ∃ a as, sep = a :: as := by
      cases sep with
      | nil => exact absurd rfl hsep
      | cons a as => exact ⟨a, as, rfl⟩
    have hpre : (a :: as).isPrefixOf (a :: (as ++ rest)) = true := by
      rw [← List.cons_append]
      exact List.isPrefixOf_iff_prefix.mpr (List.prefix_append _ _)
    simp only [List.nil_append]
    show splitOnce (a :: as) (a :: (as ++ rest)) = some ([], rest)
    rw [splitOnce, if_pos hpre]
    simp [List.drop_left]
  | cons x h ih =>
    have h0 := hocc 0 (by simp)
    simp only [List.drop_zero, List.cons_append] at h0
    have hshift : ∀ i < h.length, ¬ sep.isPrefixOf ((h ++ (sep ++ rest)).drop i) = true := by
      intro i hi
      have := hocc (i + 1) (by simp; omega)
      simpa [List.drop_succ_cons] using this
    simp only [List.cons_append]
    rw [splitOnce, if_neg h0, ih hshift]
    rfl

theorem fromBytesBE_be4 {n : Nat} (hn : n < 2 ^ 32) : fromBytesBE (be4 n) = n := by
  simp only [fromBytesBE, be4, List.foldl]
  omega

/- ===================== claim theorems ===================== -/

/-- C1: the claim asserts a 69-byte header (1-byte message type, 4-byte
big-endian sequence number, two 32-byte identifiers), with `unpack`
accepting any packet of at least 69 bytes whose type is known and whose
identifiers are ASCII.  The checked-in `CTPMessage` instead packs a 70-byte
header whose first field is a TWO-byte message type followed by a four-byte
DATA-LENGTH (no sequence number exists in this revision), and `unpack`
rejects every 69-byte packet.  First conjunct: the 69-byte packet
`type=0x04, seqnum=42, cluster=32 bytes 0x61, sender=32 bytes 0x62` — well formed
according to the claim — is rejected.  Second conjunct: the corresponding
70-byte packet (two-byte type `0x0004`, four-byte length 0) is accepted,
exhibiting the actual layout. -/
theorem ctp_unpack_uses_70_byte_header_with_data_length :
    CTPMessage.unpack
      ([4] ++ be4 42 ++ List.replicate 32 97 ++ List.replicate 32 98)
      = .error .invalidMessage
    ∧ CTPMessage.unpack
      ([0, 4] ++ be4 0 ++ List.replicate 32 97 ++ List.replicate 32 98)
      = .ok ⟨.BLOCK_REQUEST, [], List.replicate 32 97, List.replicate 32 98⟩ := by
  constructor <;> rfl

/-- C2: for every validly constructed message (identifiers exactly 32 ASCII
bytes, data a byte string within the range `struct.pack("!I", ...)`
accepts), `CTPMessage.unpack (CTPMessage.pack m)` returns `m`; equality of
the `CTPMessage` structure is exactly the field comparison performed by
`CTPMessage.__eq__` (msg_type, cluster_id, sender_id, data_length = length
of data, data). -/
theorem ctp_pack_unpack_roundtrip (m : CTPMessage)
    (hc : m.cluster_id.length = 32) (hca : asciiOk m.cluster_id = true)
    (hs : m.sender_id.length = 32) (hsa : asciiOk m.sender_id = true)
    (_hd : m.data.length < 2 ^ 32) :
    CTPMessage.unpack (CTPMessage.pack m) = .ok m := by
  obtain ⟨t, d, c, s⟩ := m
  simp only at hc hca hs hsa
  have hpack : CTPMessage.pack ⟨t, d, c, s⟩
      = (be2 t.val ++ (be4 d.length ++ (c ++ s))) ++ d := by
    simp [CTPMessage.pack, pad32_eq_self hc, pad32_eq_self hs]
  have hHlen : (be2 t.val ++ (be4 d.length ++ (c ++ s))).length = 70 := by
    simp [be2, be4, hc, hs]
  simp only [CTPMessage.unpack, hpack, ctpHeaderLength]
  rw [List.take_left' hHlen, List.drop_left' hHlen]
  rw [if_neg (by rw [List.length_append, hHlen]; omega)]
  simp only [CTPMessage.unpackHeader, ctpHeaderLength]
  rw [if_neg (by rw [hHlen]; omega)]
  have htyp : ctpMessageTypeOfVal
      (fromBytesBE ((be2 t.val ++ (be4 d.length ++ (c ++ s))).take 2)) = some t := by
    cases t <;> rfl
  rw [htyp]
  have hdrop6 : (be2 t.val ++ (be4 d.length ++ (c ++ s))).drop 6 = c ++ s := by
    simp [be2, be4]
  have hdrop38 : (be2 t.val ++ (be4 d.length ++ (c ++ s))).drop 38 = s := by
    simp only [be2, be4, List.cons_append, List.drop_succ_cons]
    exact List.drop_left' hc
  simp only [hdrop6, hdrop38, List.take_left' hc]
  rw [List.take_of_length_le (le_of_eq hs)]
  rw [if_pos (by rw [hca, hsa]; rfl)]
  rfl

/-- Witness for C2 at a concrete message. -/
theorem ctp_pack_unpack_roundtrip_witness :
    CTPMessage.unpack
      (CTPMessage.pack ⟨.STATUS_REQUEST, [104, 105], List.replicate 32 97, List.replicate 32 98⟩)
      = .ok ⟨.STATUS_REQUEST, [104, 105], List.replicate 32 97, List.replicate 32 98⟩ :=
  ctp_pack_unpack_roundtrip _ (by decide) (by decide) (by decide) (by decide) (by decide)

/-- C3 counterexample: the claim asserts `Block.unpack(Block.pack(b)) == b`
for EVERY valid block (16-byte filehash, uint32 block id, arbitrary data).
The block with id 0x0D0A0D0A = 218762506 is valid, but its packed id bytes
are `\r\n\r\n`, so `unpack` splits at them (Python `split` takes the FIRST
occurrence) and reconstructs a different block. -/
theorem block_roundtrip_counterexample :
    ((List.replicate 16 90 : List Nat).length = 16 ∧ (218762506 : Nat) < 2 ^ 32)
    ∧ blockUnpack (blockPack ⟨List.replicate 16 90, 218762506, [], false⟩)
      ≠ some ⟨List.replicate 16 90, 218762506, [], false⟩ := by
  decide

/-- C3 (amended): the round trip holds for every valid block — 16-byte
filehash, block id below 2^32 (the range `to_bytes(4, "big")` accepts),
`downloaded` consistent with the constructor — PROVIDED the double CRLF
written by `pack` at offset 21 is the first occurrence of `\r\n\r\n` in the
packed bytes (no occurrence starts within the 21-byte header region). -/
theorem block_pack_unpack_roundtrip (b : PBlock)
    (hh : b.filehash.length = 16)
    (hid : b.block_id < 2 ^ 32)
    (hdl : b.downloaded = !b.data.isEmpty)
    (hocc : ∀ i < 21, ¬ crlf2.isPrefixOf ((blockPack b).drop i) = true) :
    blockUnpack (blockPack b) = some b := by
  obtain ⟨fh, id, d, dl⟩ := b
  simp only at hh hid hdl
  subst hdl
  have hform : blockPack ⟨fh, id, d, !d.isEmpty⟩
      = (fh ++ ([32] ++ be4 id)) ++ (crlf2 ++ d) := by
    simp [blockPack]
  have hHlen : (fh ++ ([32] ++ be4 id)).length = 21 := by simp [be4, hh]
  have hocc' : ∀ i < (fh ++ ([32] ++ be4 id)).length,
      ¬ crlf2.isPrefixOf (((fh ++ ([32] ++ be4 id)) ++ (crlf2 ++ d)).drop i) = true := by
    intro i hi
    rw [← hform]
    exact hocc i (by omega)
  have hsplit : splitOnce crlf2 ((fh ++ ([32] ++ be4 id)) ++ (crlf2 ++ d))
      = some (fh ++ ([32] ++ be4 id), d) :=
    splitOnce_first_occ (by decide) _ _ hocc'
  have hdrop17 : (fh ++ ([32] ++ be4 id)).drop 17 = be4 id := by
    rw [List.drop_append_eq_append_drop, List.drop_eq_nil_of_le (by omega), hh]
    rfl
  rw [hform]
  simp only [blockUnpack, hsplit]
  rw [List.take_left' hh, if_pos hh, hdrop17, fromBytesBE_be4 hid]
  rfl

/-- Witness for the amended C3 round trip at a concrete block. -/
theorem block_pack_unpack_roundtrip_witness :
    blockUnpack (blockPack ⟨List.replicate 16 90, 7, [120, 121, 122], true⟩)
      = some ⟨List.replicate 16 90, 7, [120, 121, 122], true⟩ :=
  block_pack_unpack_roundtrip _ (by decide) (by decide) (by decide) (by decide)

/-- C9 counterexample: the claim asserts `Block.unpack` returns `None`
whenever the block-id field is not 4 bytes.  The packet consisting of a
16-byte filehash immediately followed by the double CRLF has an EMPTY
block-id field (and no separating space), yet `unpack` accepts it,
returning a block with id 0 (`int.from_bytes(b"", "big") == 0`). -/
theorem block_unpack_counterexample :
    blockUnpack (List.replicate 16 90 ++ crlf2)
      = some ⟨List.replicate 16 90, 0, [], false⟩ := by
  decide

/-- C9 (amended): `Block.unpack` returns `None` exactly when the double
CRLF separator is missing or fewer than 16 bytes precede its first
occurrence; otherwise it returns the block assembled from the first 16
bytes (filehash), the big-endian value of the bytes after position 17 of
the pre-separator part — a field of ANY length, zero included, that is
never validated to be 4 bytes — and the post-separator bytes as data. -/
theorem block_unpack_structure (packet : List Nat) :
    ((∀ i < packet.length, ¬ crlf2.isPrefixOf (packet.drop i) = true) →
      blockUnpack packet = none)
    ∧ (∀ h rest, packet = h ++ (crlf2 ++ rest) →
        (∀ i < h.length, ¬ crlf2.isPrefixOf (packet.drop i) = true) →
        h.length < 16 → blockUnpack packet = none)
    ∧ (∀ h rest, packet = h ++ (crlf2 ++ rest) →
        (∀ i < h.length, ¬ crlf2.isPrefixOf (packet.drop i) = true) →
        16 ≤ h.length →
        blockUnpack packet
          = some (blockInit (h.take 16) (fromBytesBE (h.drop 17)) rest)) := by
  refine ⟨?_, ?_, ?_⟩
  · intro hocc
    simp [blockUnpack, splitOnce_eq_none_of_no_occ (by decide) packet hocc]
  · intro h rest hp hocc hlen
    subst hp
    have hs := splitOnce_first_occ (by decide) h rest hocc
    simp only [blockUnpack, hs]
    rw [List.length_take, if_neg (by omega)]
  · intro h rest hp hocc hlen
    subst hp
    have hs := splitOnce_first_occ (by decide) h rest hocc
    simp only [blockUnpack, hs]
    rw [List.length_take, if_pos (by omega)]

/-- Witness for C9 exercising all three cases of `block_unpack_structure`
at concrete packets. -/
theorem block_unpack_structure_witness :
    blockUnpack [1, 2, 3] = none
    ∧ blockUnpack ([7] ++ (crlf2 ++ [9])) = none
    ∧ blockUnpack (List.replicate 20 7 ++ (crlf2 ++ [9]))
      = some (blockInit ((List.replicate 20 7).take 16)
          (fromBytesBE ((List.replicate 20 7).drop 17)) [9]) :=
  ⟨(block_unpack_structure [1, 2, 3]).1 (by decide),
   (block_unpack_structure _).2.1 [7] [9] rfl (by decide) (by decide),
   (block_unpack_structure _).2.2 (List.replicate 20 7) [9] rfl (by decide) (by decide)⟩

/-- C4: the CRTEMP round trip fails.  For the partially downloaded file
`tempFileEx` (3 blocks; block 0 = "A" downloaded, block 1 missing, block 2
= "B" downloaded), writing with `write_temp_file` and re-reading the bytes
with `from_temp_file` preserves the set of downloaded block ids but NOT the
data of every downloaded block: block 0 comes back as "AB" — when the next
pointer is −1 the decoder takes `data[first:]`, the rest of the whole data
region, instead of stopping at the next present block.  First conjunct:
the decoded per-block (downloaded, data) pairs; second conjunct: the pairs
of the file that was written. -/
theorem temp_file_roundtrip_corrupts_block :
    ((writeTempFile tempFileEx).bind (fromTempBytes tempInfoEx)).map
        (fun f => f.blocks.map (fun b => (b.downloaded, b.data)))
      = .ok [(true, [65, 66]), (false, []), (true, [66])]
    ∧ tempFileEx.blocks.map (fun b => (b.downloaded, b.data))
      = [(true, [65]), (false, []), (true, [66])] :=
  ⟨rfl, rfl⟩

theorem getResponse_fst_eq_none {e : Nat} {q : List (CTPMsg × AddrT)}
    (h : ∀ x ∈ q, x.1.seqnum ≠ e) : (getResponse e q).1 = none := by
  induction q with
  | nil => rfl
  | cons t rest ih =>
    have ht := h t (by simp)
    simp only [getResponse, if_neg ht]
    exact ih (fun x hx => h x (by simp [hx]))

theorem getResponse_fst_first {e : Nat} {q1 : List (CTPMsg × AddrT)}
    {m : CTPMsg} {a : AddrT} {q2 : List (CTPMsg × AddrT)}
    (h1 : ∀ x ∈ q1, x.1.seqnum ≠ e) (hm : m.seqnum = e) :
    (getResponse e (q1 ++ (m, a) :: q2)).1 = some m := by
  induction q1 with
  | nil => simp [getResponse, hm]
  | cons t rest ih =>
    have ht := h1 t (by simp)
    simp only [List.cons_append, getResponse, if_neg ht]
    exact ih (fun x hx => h1 x (by simp [hx]))

theorem sendLoop_all_timeout {t : MsgType} {seqnum : Nat}
    {queues : Nat → List (CTPMsg × AddrT)}
    (hn : ¬(t = MsgType.NO_OP ∨ t = MsgType.PEERLIST_PUSH)) :
    ∀ rem k, (∀ j, k ≤ j → j < k + rem → ∀ x ∈ queues j, x.1.seqnum ≠ seqnum + 1) →
      sendLoop t seqnum queues rem k = .error .connError := by
  intro rem
  induction rem with
  | zero => intro k _; rfl
  | succ r ih =>
    intro k hq
    have hnone : (getResponse (seqnum + 1) (queues k)).1 = none :=
      getResponse_fst_eq_none (hq k (le_refl k) (by omega))
    simp only [sendLoop, if_neg hn, hnone]
    exact ih (k + 1) (fun j hj1 hj2 => hq j (by omega) (by omega))

/-- C5: behaviour of `CTPPeer.send_request`.  (i) For `NO_OP` and
`PEERLIST_PUSH` the call returns `None` after sending, for EVERY
response-queue history — in particular without consulting any response.
(ii) Otherwise, when the queue observed by the first attempt contains an
entry with seqnum = request seqnum + 1, the first such entry is returned;
the sender id, cluster id and source address of the entry are arbitrary — only
the seqnum is matched.  (iii) When no attempt (there are retries + 1 of
them) observes a matching entry, the call raises `CTPConnectionError`. -/
theorem send_request_behaviour (t : MsgType) (seqnum retries : Nat)
    (queues : Nat → List (CTPMsg × AddrT)) :
    ((t = MsgType.NO_OP ∨ t = MsgType.PEERLIST_PUSH) →
      sendRequestM t seqnum retries queues = .ok none)
    ∧ (t.isRequest = true → ¬(t = MsgType.NO_OP ∨ t = MsgType.PEERLIST_PUSH) →
        ∀ q1 m a q2, queues 0 = q1 ++ (m, a) :: q2 →
          (∀ x ∈ q1, x.1.seqnum ≠ seqnum + 1) → m.seqnum = seqnum + 1 →
          sendRequestM t seqnum retries queues = .ok (some m))
    ∧ (t.isRequest = true → ¬(t = MsgType.NO_OP ∨ t = MsgType.PEERLIST_PUSH) →
        (∀ k, k ≤ retries → ∀ x ∈ queues k, x.1.seqnum ≠ seqnum + 1) →
        sendRequestM t seqnum retries queues = .error .connError) := by
  refine ⟨?_, ?_, ?_⟩
  · intro h
    have hreq : t.isRequest = true := by
      rcases h with h | h <;> subst h <;> rfl
    simp [sendRequestM, hreq, sendLoop, h]
  · intro hreq hn q1 m a q2 hq h1 hm
    have hfst : (getResponse (seqnum + 1) (queues 0)).1 = some m := by
      rw [hq]; exact getResponse_fst_first h1 hm
    simp [sendRequestM, hreq, sendLoop, if_neg hn, hfst]
  · intro hreq hn hq
    rw [sendRequestM, if_pos hreq]
    exact sendLoop_all_timeout hn (retries + 1) 0
      (fun j _ hj2 => hq j (by omega))

/-- Witness for C5: all three behaviours at concrete inputs — a
`PEERLIST_PUSH` returning `None`; a `STATUS_REQUEST` with seqnum 5 whose
first-attempt queue holds a non-matching entry (seqnum 9) followed by the
matching one (seqnum 6, arbitrary sender); and a `STATUS_REQUEST` with one
retry and empty queues failing with `CTPConnectionError`. -/
theorem send_request_behaviour_witness :
    sendRequestM MsgType.PEERLIST_PUSH 5 0 (fun _ => []) = .ok none
    ∧ sendRequestM MsgType.STATUS_REQUEST 5 0
        (fun _ =>
          [(⟨MsgType.STATUS_RESPONSE, 9, [], [4], [7]⟩, ([], 1)),
           (⟨MsgType.BLOCK_RESPONSE, 6, [1], [2], [3]⟩, ([9], 2))])
      = .ok (some ⟨MsgType.BLOCK_RESPONSE, 6, [1], [2], [3]⟩)
    ∧ sendRequestM MsgType.STATUS_REQUEST 5 1 (fun _ => []) = .error .connError :=
  ⟨(send_request_behaviour MsgType.PEERLIST_PUSH 5 0 (fun _ => [])).1 (Or.inr rfl),
   (send_request_behaviour MsgType.STATUS_REQUEST 5 0 _).2.1 rfl (by decide)
     [(⟨MsgType.STATUS_RESPONSE, 9, [], [4], [7]⟩, ([], 1))]
     ⟨MsgType.BLOCK_RESPONSE, 6, [1], [2], [3]⟩ ([9], 2) [] rfl (by decide) rfl,
   (send_request_behaviour MsgType.STATUS_REQUEST 5 1 (fun _ => [])).2.2 rfl (by decide)
     (fun k _ x hx => absurd hx (List.not_mem_nil x))⟩

theorem assocLookup_update_self {α : Type} (k : List Nat) (v : α)
    (m : List (List Nat × α)) : assocLookup k (assocUpdate k v m) = some v := by
  induction m with
  | nil => simp [assocUpdate, assocLookup]
  | cons kv rest ih =>
    by_cases h : kv.1 = k
    · simp [assocUpdate, assocLookup, h]
    · simp only [assocUpdate]
      rw [if_neg ?hne]
      · simp only [assocLookup]
        rw [if_neg h]
        exact ih
      case hne => exact h

theorem assocLookup_update_other {α : Type} {k k' : List Nat} (h : k' ≠ k)
    (v : α) (m : List (List Nat × α)) :
    assocLookup k' (assocUpdate k v m) = assocLookup k' m := by
  induction m with
  | nil =>
    simp only [assocUpdate, assocLookup]
    rw [if_neg (fun hh => h hh.symm)]
  | cons kv rest ih =>
    by_cases hk : kv.1 = k
    · simp only [assocUpdate]
      rw [if_pos hk]
      simp only [assocLookup]
      rw [if_neg (fun hh => h hh.symm), if_neg (by rw [hk]; exact fun hh => h hh.symm)]
    · simp only [assocUpdate]
      rw [if_neg hk]
      simp only [assocLookup]
      by_cases hkk : kv.1 = k'
      · rw [if_pos hkk, if_pos hkk]
      · rw [if_neg hkk, if_neg hkk]
        exact ih

/-- C6 counterexample: the claim keys the duplicate check on the FILENAME,
but `handle_new_crinfo_notif` checks `fileinfo in fileinfo_map.values()`,
and `FileInfo.__eq__` compares only the FILEHASH.  A server knowing only
filename "a" (hash 16 bytes of 1) receives a well-formed notification for
the UNKNOWN filename "b" carrying the same hash: it replies
"error: exists" and persists nothing, although the claim requires
"success" for an unknown filename.  Second conjunct: "b" is indeed absent
from the map. -/
theorem new_crinfo_notif_counterexample :
    handleNewCrinfoNotif
        ⟨[(asciiOf "a", mkFInfo (asciiOf "a") (List.replicate 16 1) 5 (asciiOf "1.0"))], []⟩
        (asciiOf "b" ++ crlf2 ++ (asciiOf "CRINFO 5 1.0" ++ crlf ++ List.replicate 16 1))
      = ((.NEW_CRINFO_NOTIF_ACK, asciiOf "error: exists"),
         ⟨[(asciiOf "a", mkFInfo (asciiOf "a") (List.replicate 16 1) 5 (asciiOf "1.0"))], []⟩)
    ∧ assocLookup (asciiOf "b")
        [(asciiOf "a", mkFInfo (asciiOf "a") (List.replicate 16 1) 5 (asciiOf "1.0"))]
      = none := by
  constructor <;> rfl

/-- C6 (amended): for a `NEW_CRINFO_NOTIF` body — (i) on a malformed body
(`ValueError` anywhere in the parse) the reply is `INVALID_REQ` and the
state is unchanged; (ii) when SOME STORED FileInfo HAS THE SAME FILEHASH
(the criterion is FileInfo equality = filehash equality, not filename), the
reply is `NEW_CRINFO_NOTIF_ACK` "error: exists" and the state is
unchanged; (iii) when no stored FileInfo has the same filehash, the reply
is `NEW_CRINFO_NOTIF_ACK` "success", the parsed FileInfo is stored under
its filename, every other entry is unchanged, and the manifest is rewritten
from the updated map. -/
theorem new_crinfo_notif_by_filehash (st : ServerFiles) (reqData : List Nat) :
    (parseNewCrinfoBody reqData = none →
      handleNewCrinfoNotif st reqData
        = ((.INVALID_REQ, asciiOf "error: corrupted CRINFO file or filename"), st))
    ∧ (∀ fi, parseNewCrinfoBody reqData = some fi →
        (∃ kv ∈ st.fileinfo_map, kv.2.filehash = fi.filehash) →
        handleNewCrinfoNotif st reqData
          = ((.NEW_CRINFO_NOTIF_ACK, asciiOf "error: exists"), st))
    ∧ (∀ fi, parseNewCrinfoBody reqData = some fi →
        (∀ kv ∈ st.fileinfo_map, kv.2.filehash ≠ fi.filehash) →
        (handleNewCrinfoNotif st reqData).1 = (.NEW_CRINFO_NOTIF_ACK, asciiOf "success")
        ∧ assocLookup fi.filename (handleNewCrinfoNotif st reqData).2.fileinfo_map
            = some fi
        ∧ (∀ k, k ≠ fi.filename →
            assocLookup k (handleNewCrinfoNotif st reqData).2.fileinfo_map
              = assocLookup k st.fileinfo_map)
        ∧ (handleNewCrinfoNotif st reqData).2.manifest
            = manifestBytes (handleNewCrinfoNotif st reqData).2.fileinfo_map) := by
  cases hsp : splitOnce crlf2 reqData with
  | none =>
    refine ⟨fun _ => by simp [handleNewCrinfoNotif, hsp], ?_, ?_⟩
    · intro fi hfi
      simp [parseNewCrinfoBody, hsp] at hfi
    · intro fi hfi
      simp [parseNewCrinfoBody, hsp] at hfi
  | some p =>
    obtain ⟨fb, cb⟩ := p
    by_cases hok : asciiOk fb = true
    · cases hparse : fileInfoFromBytes fb cb with
      | none =>
        refine ⟨fun _ => ?_, ?_, ?_⟩
        · simp [handleNewCrinfoNotif, hsp, hok, hparse]
        · intro fi hfi
          simp [parseNewCrinfoBody, hsp, hok, hparse] at hfi
        · intro fi hfi
          simp [parseNewCrinfoBody, hsp, hok, hparse] at hfi
      | some fi0 =>
        refine ⟨fun hno => ?_, ?_, ?_⟩
        · simp [parseNewCrinfoBody, hsp, hok, hparse] at hno
        · intro fi hfi hex
          simp only [parseNewCrinfoBody, hsp, if_pos hok, hparse, Option.some.injEq] at hfi
          subst hfi
          have hany : (st.fileinfo_map.any fun kv => kv.2.filehash == fi0.filehash) = true := by
            rw [List.any_eq_true]
            obtain ⟨kv, hkv, he⟩ := hex
            exact ⟨kv, hkv, beq_iff_eq.mpr he⟩
          simp [handleNewCrinfoNotif, hsp, hok, hparse, hany]
        · intro fi hfi hall
          simp only [parseNewCrinfoBody, hsp, if_pos hok, hparse, Option.some.injEq] at hfi
          subst hfi
          have hany : (st.fileinfo_map.any fun kv => kv.2.filehash == fi0.filehash) = false := by
            rw [List.any_eq_false]
            intro kv hkv
            simpa using hall kv hkv
          have hres : handleNewCrinfoNotif st reqData
              = ((.NEW_CRINFO_NOTIF_ACK, asciiOf "success"), serverAddFileinfo st fi0) := by
            simp [handleNewCrinfoNotif, hsp, hok, hparse, hany]
          rw [hres]
          refine ⟨rfl, ?_, ?_, rfl⟩
          · exact assocLookup_update_self fi0.filename fi0 st.fileinfo_map
          · intro k hk
            exact assocLookup_update_other hk fi0 st.fileinfo_map
    · refine ⟨fun _ => ?_, ?_, ?_⟩
      · simp [handleNewCrinfoNotif, hsp, hok]
      · intro fi hfi
        simp [parseNewCrinfoBody, hsp, hok] at hfi
      · intro fi hfi
        simp [parseNewCrinfoBody, hsp, hok] at hfi

/-- Witness for C6 exercising the three branches of
`new_crinfo_notif_by_filehash` at concrete inputs: a body with no double
CRLF, a duplicate-hash notification, and a fresh notification installed
into an empty server. -/
theorem new_crinfo_notif_by_filehash_witness :
    handleNewCrinfoNotif ⟨[], []⟩ [0]
      = ((.INVALID_REQ, asciiOf "error: corrupted CRINFO file or filename"), ⟨[], []⟩)
    ∧ handleNewCrinfoNotif
        ⟨[(asciiOf "a", mkFInfo (asciiOf "a") (List.replicate 16 2) 5 (asciiOf "1.0"))], []⟩
        (asciiOf "a" ++ crlf2 ++ (asciiOf "CRINFO 5 1.0" ++ crlf ++ List.replicate 16 2))
      = ((.NEW_CRINFO_NOTIF_ACK, asciiOf "error: exists"),
         ⟨[(asciiOf "a", mkFInfo (asciiOf "a") (List.replicate 16 2) 5 (asciiOf "1.0"))], []⟩)
    ∧ ((handleNewCrinfoNotif ⟨[], []⟩
          (asciiOf "b" ++ crlf2 ++ (asciiOf "CRINFO 5 1.0" ++ crlf ++ List.replicate 16 1))).1
        = (.NEW_CRINFO_NOTIF_ACK, asciiOf "success")
       ∧ assocLookup (asciiOf "b")
          (handleNewCrinfoNotif ⟨[], []⟩
            (asciiOf "b" ++ crlf2
              ++ (asciiOf "CRINFO 5 1.0" ++ crlf ++ List.replicate 16 1))).2.fileinfo_map
        = some (mkFInfo (asciiOf "b") (List.replicate 16 1) 5 (asciiOf "1.0"))) :=
  ⟨(new_crinfo_notif_by_filehash ⟨[], []⟩ [0]).1 (by decide),
   (new_crinfo_notif_by_filehash _ _).2.1
     (mkFInfo (asciiOf "a") (List.replicate 16 2) 5 (asciiOf "1.0")) (by decide)
     ⟨(asciiOf "a", mkFInfo (asciiOf "a") (List.replicate 16 2) 5 (asciiOf "1.0")),
       by decide, rfl⟩,
   ((new_crinfo_notif_by_filehash _ _).2.2
      (mkFInfo (asciiOf "b") (List.replicate 16 1) 5 (asciiOf "1.0")) (by decide)
      (fun kv hkv => absurd hkv (List.not_mem_nil kv))).1,
   ((new_crinfo_notif_by_filehash _ _).2.2
      (mkFInfo (asciiOf "b") (List.replicate 16 1) 5 (asciiOf "1.0")) (by decide)
      (fun kv hkv => absurd hkv (List.not_mem_nil kv))).2.1⟩

/-- C7: behaviour of `handle_cluster_join_request`.  Unknown cluster id:
reply `INVALID_REQ` "No such cluster.", cluster state unchanged, nothing
pushed.  Known cluster id: writing `cl'` for the cluster after
`add_peer` — (1) the cluster is replaced by `cl'` and (2) other clusters
are untouched; (3) `cl'` maps the joiner to the request address and
(4) every other peer as before; (5) the liveness timer of the joiner runs;
(6) the reply is `CLUSTER_JOIN_RESPONSE` whose body joins one
`<peer_id> <ip> <port>` line per peer with CRLF, over a sorted permutation
of the peer ids of `cl'`; (7) every pushed datagram is a `PEERLIST_PUSH`
of that same updated list, and (8) the pushed destinations are exactly the
addresses of the peers of `cl'` other than the joiner. -/
theorem cluster_join_behaviour (clusters : List (List Nat × SCluster))
    (cid pid : List Nat) (addr : AddrT) :
    (assocLookup cid clusters = none →
      handleClusterJoin clusters cid pid addr
        = (clusters, (.INVALID_REQ, asciiOf "No such cluster."), []))
    ∧ (∀ cl, assocLookup cid clusters = some cl →
        assocLookup cid (handleClusterJoin clusters cid pid addr).1
            = some (clusterAddPeer cl pid addr)
        ∧ (∀ c, c ≠ cid →
            assocLookup c (handleClusterJoin clusters cid pid addr).1
              = assocLookup c clusters)
        ∧ assocLookup pid (clusterAddPeer cl pid addr).peermap = some addr
        ∧ (∀ q, q ≠ pid →
            assocLookup q (clusterAddPeer cl pid addr).peermap
              = assocLookup q cl.peermap)
        ∧ pid ∈ (clusterAddPeer cl pid addr).timers
        ∧ (∃ ks, List.Sorted (· ≤ ·) ks
            ∧ ks.Perm ((clusterAddPeer cl pid addr).peermap.map Prod.fst)
            ∧ (handleClusterJoin clusters cid pid addr).2.1
              = (.CLUSTER_JOIN_RESPONSE,
                 joinCRLF (ks.map (peerLine (clusterAddPeer cl pid addr)))))
        ∧ (∀ x ∈ (handleClusterJoin clusters cid pid addr).2.2,
            x.2 = (.PEERLIST_PUSH, generatePeerlist (clusterAddPeer cl pid addr)))
        ∧ (∀ a, ((a, (MsgType.PEERLIST_PUSH, generatePeerlist (clusterAddPeer cl pid addr)))
              ∈ (handleClusterJoin clusters cid pid addr).2.2)
            ↔ ∃ q, q ≠ pid ∧ (q, a) ∈ (clusterAddPeer cl pid addr).peermap)) := by
  constructor
  · intro hnone
    simp [handleClusterJoin, hnone]
  · intro cl hcl
    have hres : handleClusterJoin clusters cid pid addr
        = (assocUpdate cid (clusterAddPeer cl pid addr) clusters,
           (.CLUSTER_JOIN_RESPONSE, generatePeerlist (clusterAddPeer cl pid addr)),
           ((clusterAddPeer cl pid addr).peermap.filter (fun kv => !(kv.1 == pid))).map
             (fun kv => (kv.2, (MsgType.PEERLIST_PUSH,
               generatePeerlist (clusterAddPeer cl pid addr))))) := by
      simp [handleClusterJoin, hcl]
    rw [hres]
    refine ⟨assocLookup_update_self cid _ clusters,
      fun c hc => assocLookup_update_other hc _ clusters,
      assocLookup_update_self pid addr cl.peermap,
      fun q hq => assocLookup_update_other hq addr cl.peermap,
      ?_, ?_, ?_, ?_⟩
    · show pid ∈ (if pid ∈ cl.timers then cl.timers else cl.timers ++ [pid])
      by_cases h : pid ∈ cl.timers
      · rw [if_pos h]; exact h
      · rw [if_neg h]; simp
    · exact ⟨sortKeysLex ((clusterAddPeer cl pid addr).peermap.map Prod.fst),
        List.sorted_insertionSort _ _, List.perm_insertionSort _ _, rfl⟩
    · intro x hx
      obtain ⟨kv, _, rfl⟩ := List.mem_map.mp hx
      rfl
    · intro a
      constructor
      · intro hmem
        obtain ⟨kv, hkv, heq⟩ := List.mem_map.mp hmem
        obtain ⟨hkv1, hkv2⟩ := List.mem_filter.mp hkv
        refine ⟨kv.1, ?_, ?_⟩
        · intro h
          rw [h] at hkv2
          simp at hkv2
        · have : kv.2 = a := congrArg Prod.fst heq
          rw [← this]
          exact hkv1
      · rintro ⟨q, hq, hmem⟩
        refine List.mem_map.mpr ⟨(q, a), List.mem_filter.mpr ⟨hmem, ?_⟩, rfl⟩
        simp [hq]

/-- Witness for C7: a join on an empty server is rejected; a join of peer
"p2" into cluster "clu" already holding "p1" updates the stored cluster,
maps "p2" to its address, runs its timer, and pushes to "p1" only. -/
theorem cluster_join_behaviour_witness :
    handleClusterJoin [] (asciiOf "x") (asciiOf "p") ([], 0)
      = ([], (.INVALID_REQ, asciiOf "No such cluster."), [])
    ∧ assocLookup (asciiOf "clu")
        (handleClusterJoin
          [(asciiOf "clu", ⟨[(asciiOf "p1", ([49], 7001))], [asciiOf "p1"]⟩)]
          (asciiOf "clu") (asciiOf "p2") ([50], 7002)).1
      = some (clusterAddPeer ⟨[(asciiOf "p1", ([49], 7001))], [asciiOf "p1"]⟩
          (asciiOf "p2") ([50], 7002))
    ∧ assocLookup (asciiOf "p2")
        (clusterAddPeer ⟨[(asciiOf "p1", ([49], 7001))], [asciiOf "p1"]⟩
          (asciiOf "p2") ([50], 7002)).peermap
      = some ([50], 7002)
    ∧ (asciiOf "p2")
        ∈ (clusterAddPeer ⟨[(asciiOf "p1", ([49], 7001))], [asciiOf "p1"]⟩
            (asciiOf "p2") ([50], 7002)).timers
    ∧ ((([49], 7001),
        (MsgType.PEERLIST_PUSH,
         generatePeerlist (clusterAddPeer ⟨[(asciiOf "p1", ([49], 7001))], [asciiOf "p1"]⟩
           (asciiOf "p2") ([50], 7002))))
        ∈ (handleClusterJoin
            [(asciiOf "clu", ⟨[(asciiOf "p1", ([49], 7001))], [asciiOf "p1"]⟩)]
            (asciiOf "clu") (asciiOf "p2") ([50], 7002)).2.2) :=
  ⟨(cluster_join_behaviour [] (asciiOf "x") (asciiOf "p") ([], 0)).1 rfl,
   ((cluster_join_behaviour
       [(asciiOf "clu", ⟨[(asciiOf "p1", ([49], 7001))], [asciiOf "p1"]⟩)]
       (asciiOf "clu") (asciiOf "p2") ([50], 7002)).2
     ⟨[(asciiOf "p1", ([49], 7001))], [asciiOf "p1"]⟩ rfl).1,
   ((cluster_join_behaviour
       [(asciiOf "clu", ⟨[(asciiOf "p1", ([49], 7001))], [asciiOf "p1"]⟩)]
       (asciiOf "clu") (asciiOf "p2") ([50], 7002)).2
     ⟨[(asciiOf "p1", ([49], 7001))], [asciiOf "p1"]⟩ rfl).2.2.1,
   ((cluster_join_behaviour
       [(asciiOf "clu", ⟨[(asciiOf "p1", ([49], 7001))], [asciiOf "p1"]⟩)]
       (asciiOf "clu") (asciiOf "p2") ([50], 7002)).2
     ⟨[(asciiOf "p1", ([49], 7001))], [asciiOf "p1"]⟩ rfl).2.2.2.2.1,
   (((cluster_join_behaviour
        [(asciiOf "clu", ⟨[(asciiOf "p1", ([49], 7001))], [asciiOf "p1"]⟩)]
        (asciiOf "clu") (asciiOf "p2") ([50], 7002)).2
      ⟨[(asciiOf "p1", ([49], 7001))], [asciiOf "p1"]⟩ rfl).2.2.2.2.2.2.2
      ([49], 7001)).mpr ⟨asciiOf "p1", by decide, by decide⟩⟩

theorem assocLookup_eq_none_of_not_mem {α : Type} {k : List Nat}
    {m : List (List Nat × α)} (h : k ∉ m.map Prod.fst) : assocLookup k m = none := by
  induction m with
  | nil => rfl
  | cons kv rest ih =>
    simp only [List.map_cons, List.mem_cons] at h
    push_neg at h
    simp only [assocLookup]
    rw [if_neg (fun he => h.1 he.symm)]
    exact ih h.2

theorem assocLookup_erase_self {α : Type} {k : List Nat} {m : List (List Nat × α)}
    (hnd : (m.map Prod.fst).Nodup) : assocLookup k (assocErase k m) = none := by
  induction m with
  | nil => rfl
  | cons kv rest ih =>
    simp only [List.map_cons, List.nodup_cons] at hnd
    by_cases h : kv.1 = k
    · simp only [assocErase]
      rw [if_pos h]
      exact assocLookup_eq_none_of_not_mem (h ▸ hnd.1)
    · simp only [assocErase]
      rw [if_neg h]
      simp only [assocLookup]
      rw [if_neg h]
      exact ih hnd.2

theorem assocLookup_erase_other {α : Type} {k k' : List Nat} (h : k' ≠ k)
    (m : List (List Nat × α)) :
    assocLookup k' (assocErase k m) = assocLookup k' m := by
  induction m with
  | nil => rfl
  | cons kv rest ih =>
    by_cases hk : kv.1 = k
    · simp only [assocErase]
      rw [if_pos hk]
      simp only [assocLookup]
      rw [if_neg (by rw [hk]; exact fun he => h he.symm)]
    · simp only [assocErase]
      rw [if_neg hk]
      simp only [assocLookup]
      by_cases hkk : kv.1 = k'
      · rw [if_pos hkk, if_pos hkk]
      · rw [if_neg hkk, if_neg hkk]
        exact ih

theorem mem_unlink {disk : List (List (List Nat))} {p t : List (List Nat)} :
    p ∈ unlink disk t ↔ p ∈ disk ∧ p ≠ t := by
  simp [unlink, List.mem_filter]

/-- C8 counterexample: the claim says a peer answers a request type it has
no dedicated handler for with `UNEXPECTED_REQ`; `PeerRequestHandler`
instead answers `STATUS_RESPONSE` with body `"status: 1"` (its
`handle_unknown_request` override), shown here for a received
`CLUSTER_JOIN_REQUEST`. -/
theorem peer_unknown_request_counterexample :
    peerRequestHandle [] ⟨.CLUSTER_JOIN_REQUEST, 5, [], [], []⟩
      = some (.STATUS_RESPONSE, asciiOf "status: 1")
    ∧ Option.map Prod.fst (peerRequestHandle [] ⟨.CLUSTER_JOIN_REQUEST, 5, [], [], []⟩)
      ≠ some MsgType.UNEXPECTED_REQ := by
  constructor
  · rfl
  · decide

/-- C8 (amended): for every request whose type is NOT one of the five the
peer dispatches to a dedicated handler (`STATUS_REQUEST`, `NOTIFICATION`,
`BLOCK_REQUEST`, `PEERLIST_PUSH`, `NO_OP`), the peer replies
`STATUS_RESPONSE` with body `"status: 1"` — `PeerRequestHandler`
overrides the `UNEXPECTED_REQ` default of the base `RequestHandler`. -/
theorem peer_unknown_request_replies_status (filemap : List CRFile) (req : CTPMsg)
    (h : req.msg_type ∉ [MsgType.STATUS_REQUEST, MsgType.NOTIFICATION,
      MsgType.BLOCK_REQUEST, MsgType.PEERLIST_PUSH, MsgType.NO_OP]) :
    peerRequestHandle filemap req = some (.STATUS_RESPONSE, asciiOf "status: 1") := by
  obtain ⟨t, sq, d, c, s⟩ := req
  simp only at h
  cases t <;> first
  | rfl
  | exact absurd (by decide) h

/-- Witness for C8 at a concrete unhandled request type. -/
theorem peer_unknown_request_replies_status_witness :
    peerRequestHandle [] ⟨.MANIFEST_REQUEST, 1, [2], [3], [4]⟩
      = some (.STATUS_RESPONSE, asciiOf "status: 1") :=
  peer_unknown_request_replies_status [] ⟨.MANIFEST_REQUEST, 1, [2], [3], [4]⟩ (by decide)

/-- C10: frame of `SharedDirectory.delete_file(name)`.  With distinct
filemap keys (the dict invariant): the entry for `name` is gone and every
other entry is untouched; the data file and the descriptor are no longer
on disk (unlinked with no error when absent — the operation is total);
the `.crtemp` partial-download file is on disk afterwards exactly when it
was before (it is never unlinked); and any path other than the two
unlinked ones is untouched. -/
theorem delete_file_frame (st : SDState) (name : List Nat)
    (hnd : (st.filemap.map Prod.fst).Nodup) :
    assocLookup name (deleteFile st name).filemap = none
    ∧ (∀ k, k ≠ name →
        assocLookup k (deleteFile st name).filemap = assocLookup k st.filemap)
    ∧ dataPath name ∉ (deleteFile st name).disk
    ∧ crinfoPath name ∉ (deleteFile st name).disk
    ∧ (tempPath name ∈ (deleteFile st name).disk ↔ tempPath name ∈ st.disk)
    ∧ (∀ p, p ≠ dataPath name → p ≠ crinfoPath name →
        (p ∈ (deleteFile st name).disk ↔ p ∈ st.disk)) := by
  have hmem : ∀ p, p ∈ (deleteFile st name).disk
      ↔ (p ∈ st.disk ∧ p ≠ dataPath name) ∧ p ≠ crinfoPath name := by
    intro p
    show p ∈ unlink (unlink st.disk (dataPath name)) (crinfoPath name) ↔ _
    rw [mem_unlink, mem_unlink]
  have htd : tempPath name ≠ dataPath name := by
    intro h
    have := congrArg (fun l => (l.headD []).length) h
    simp [tempPath, dataPath, asciiOf] at this
  have htc : tempPath name ≠ crinfoPath name := by
    intro h
    have := congrArg List.length h
    simp [tempPath, crinfoPath] at this
  refine ⟨assocLookup_erase_self hnd,
    fun k hk => assocLookup_erase_other hk st.filemap, ?_, ?_, ?_, ?_⟩
  · intro h
    exact ((hmem (dataPath name)).mp h).1.2 rfl
  · intro h
    exact ((hmem (crinfoPath name)).mp h).2 rfl
  · rw [hmem (tempPath name)]
    constructor
    · exact fun h => h.1.1
    · exact fun h => ⟨⟨h, htd⟩, htc⟩
  · intro p hpd hpc
    rw [hmem p]
    constructor
    · exact fun h => h.1.1
    · exact fun h => ⟨⟨h, hpd⟩, hpc⟩

/-- Witness for C10 at a concrete state: a directory holding the data
file, descriptor and temp file of "f" plus an unrelated file "g"; after
`delete_file("f")` the "f" entry is gone, "g" survives in the filemap and
on disk, the data file and descriptor of "f" are gone, and "f.crtemp"
remains. -/
theorem delete_file_frame_witness :
    assocLookup (asciiOf "f")
      (deleteFile ⟨[(asciiOf "f", ⟨tempInfoEx, []⟩)],
        [dataPath (asciiOf "f"), crinfoPath (asciiOf "f"), tempPath (asciiOf "f"),
         dataPath (asciiOf "g")]⟩ (asciiOf "f")).filemap = none
    ∧ dataPath (asciiOf "f")
        ∉ (deleteFile ⟨[(asciiOf "f", ⟨tempInfoEx, []⟩)],
            [dataPath (asciiOf "f"), crinfoPath (asciiOf "f"), tempPath (asciiOf "f"),
             dataPath (asciiOf "g")]⟩ (asciiOf "f")).disk
    ∧ (tempPath (asciiOf "f")
        ∈ (deleteFile ⟨[(asciiOf "f", ⟨tempInfoEx, []⟩)],
            [dataPath (asciiOf "f"), crinfoPath (asciiOf "f"), tempPath (asciiOf "f"),
             dataPath (asciiOf "g")]⟩ (asciiOf "f")).disk
       ↔ tempPath (asciiOf "f")
        ∈ [dataPath (asciiOf "f"), crinfoPath (asciiOf "f"), tempPath (asciiOf "f"),
           dataPath (asciiOf "g")])
    ∧ (dataPath (asciiOf "g")
        ∈ (deleteFile ⟨[(asciiOf "f", ⟨tempInfoEx, []⟩)],
            [dataPath (asciiOf "f"), crinfoPath (asciiOf "f"), tempPath (asciiOf "f"),
             dataPath (asciiOf "g")]⟩ (asciiOf "f")).disk
       ↔ dataPath (asciiOf "g")
        ∈ [dataPath (asciiOf "f"), crinfoPath (asciiOf "f"), tempPath (asciiOf "f"),
           dataPath (asciiOf "g")]) :=
  ⟨(delete_file_frame _ _ (by decide)).1,
   (delete_file_frame _ _ (by decide)).2.2.1,
   (delete_file_frame _ _ (by decide)).2.2.2.2.1,
   (delete_file_frame _ _ (by decide)).2.2.2.2.2 (dataPath (asciiOf "g"))
     (by decide) (by decide)⟩
